import Mathlib

/-!
Verification of the tool-dispatch and request-translation layer of the
bitbucket-server-mcp repository.

The embedding follows the TypeScript source: the dispatcher in
src/bitbucket-server.ts (the CallToolRequestSchema handler) and the
operation-handler bodies of the BitbucketServer class (createPullRequest,
mergePullRequest, declinePullRequest, addComment, getDiff, getReviews,
addInlineComment).  JavaScript-specific behaviour is modelled explicitly:
nullish coalescing (x ?? y falls back only on null/undefined), truthiness
(the empty string and the number 0 are falsy), template-string rendering of
undefined as the text "undefined", and JSON serialisation dropping fields
whose value is undefined (modelled as Option fields on the body records).
-/

namespace BitbucketMcp

/-- String.prototype.split with a one-character separator, on the character
list of the string: structural recursion so that concrete instances evaluate. -/
def splitChars (sep : Char) : List Char → List (List Char)
  | [] => [[]]
  | c :: cs =>
    match splitChars sep cs with
    | [] => if c = sep then [[], []] else [[c]]
    | piece :: rest =>
      if c = sep then [] :: piece :: rest
      else (c :: piece) :: rest

/-- String.prototype.split with a one-character separator. -/
def splitJs (sep : Char) (s : String) : List String :=
  (splitChars sep s.data).map String.mk

/-- String.prototype.trim: strip leading and trailing whitespace. -/
def trimJs (s : String) : String :=
  String.mk (((s.data.dropWhile Char.isWhitespace).reverse.dropWhile Char.isWhitespace).reverse)

/-- Array.prototype.join with a separator string. -/
def joinSep (sep : String) : List String → String
  | [] => ""
  | [x] => x
  | x :: y :: rest => x ++ sep ++ joinSep sep (y :: rest)

/-- JavaScript truthiness of an optional string: undefined and "" are falsy. -/
def truthyStr : Option String → Bool
  | some s => s != ""
  | none => false

/-- JavaScript truthiness of an optional number: undefined and 0 are falsy. -/
def truthyInt : Option Int → Bool
  | some n => n != 0
  | none => false

/-- JavaScript nullish coalescing a ?? b for optional strings. -/
def jsNullish (a b : Option String) : Option String :=
  match a with
  | some s => some s
  | none => b

/-- Template-string rendering of a possibly-undefined string value. -/
def jsShowStr : Option String → String
  | some s => s
  | none => "undefined"

/-- Template-string rendering of a possibly-undefined number value. -/
def jsShowInt : Option Int → String
  | some n => toString n
  | none => "undefined"

/-- The environment variables the server reads (BITBUCKET_URL, BITBUCKET_TOKEN,
BITBUCKET_USERNAME, BITBUCKET_PASSWORD, BITBUCKET_DEFAULT_PROJECT,
BITBUCKET_DEFAULT_REVIEWERS); each may be unset. -/
structure EnvVars where
  url : Option String
  token : Option String
  username : Option String
  password : Option String
  defaultProject : Option String
  defaultReviewers : Option String
deriving Repr, DecidableEq

/-- BitbucketConfig from src/types.ts. -/
structure BitbucketConfig where
  baseUrl : String
  token : Option String
  username : Option String
  password : Option String
  defaultProject : Option String
deriving Repr, DecidableEq

/-- The config assignment of the BitbucketServer constructor: baseUrl from
BITBUCKET_URL with the nullish fallback to the empty string, the remaining
variables taken as provided. -/
def loadConfig (env : EnvVars) : BitbucketConfig :=
  { baseUrl := (env.url).getD ""
    token := env.token
    username := env.username
    password := env.password
    defaultProject := env.defaultProject }

/-- The configuration block of the BitbucketServer constructor
(src/bitbucket-server.ts lines 62-77): load the config from the environment,
throw if the base URL is falsy, throw if neither a truthy token nor a truthy
username/password pair is available. -/
def constructConfig (env : EnvVars) : Except String BitbucketConfig :=
  if (loadConfig env).baseUrl = "" then
    .error "BITBUCKET_URL is required"
  else if !truthyStr (loadConfig env).token &&
      !(truthyStr (loadConfig env).username && truthyStr (loadConfig env).password) then
    .error "Either BITBUCKET_TOKEN or BITBUCKET_USERNAME/PASSWORD is required"
  else
    .ok (loadConfig env)

/-- PullRequestParams from src/types.ts; fields are Option because the
dispatcher builds them from unvalidated casts of the argument map. -/
structure PullRequestParams where
  project : Option String
  repository : Option String
  prId : Option Int
deriving Repr, DecidableEq

/-- reviewers entries of the create-pull-request body: \x7buser: \x7bname\x7d\x7d. -/
structure ReviewerEntry where
  name : String
deriving Repr, DecidableEq

/-- fromRef / toRef of the create-pull-request body. -/
structure BranchRef where
  id : String
  repositorySlug : String
  projectKey : String
deriving Repr, DecidableEq

/-- Body of the create-pull-request POST (class method createPullRequest). -/
structure CreatePullRequestBody where
  title : String
  description : Option String
  fromRef : BranchRef
  toRef : BranchRef
  reviewers : Option (List ReviewerEntry)
deriving Repr, DecidableEq

/-- Body of the merge POST: \x7bversion: -1, message, strategy\x7d. -/
structure MergeBody where
  version : Int
  message : Option String
  strategy : String
deriving Repr, DecidableEq

/-- Body of the decline POST: \x7bversion: -1, message\x7d. -/
structure DeclineBody where
  version : Int
  message : Option String
deriving Repr, DecidableEq

/-- Body of the plain add-comment POST: \x7btext, parent?\x7d. -/
structure AddCommentBody where
  text : Option String
  parent : Option Int
deriving Repr, DecidableEq

/-- The anchor of an inline comment (CommentPayload.anchor in src/types.ts). -/
structure CommentAnchor where
  diffType : String
  path : Option String
  lineType : String
  line : Option Int
  fileType : String
  startColumn : Option Int
  endColumn : Option Int
deriving Repr, DecidableEq

/-- Body of the inline-comment POST (CommentPayload in src/types.ts). -/
structure InlineCommentBody where
  text : Option String
  anchor : CommentAnchor
  parent : Option Int
deriving Repr, DecidableEq

/-- The JSON body of an outbound POST, one variant per operation. -/
inductive RequestBody where
  | createPullRequest (b : CreatePullRequestBody)
  | merge (b : MergeBody)
  | decline (b : DeclineBody)
  | addComment (b : AddCommentBody)
  | inlineComment (b : InlineCommentBody)
deriving Repr, DecidableEq

/-- One outbound HTTP request as issued through the axios instance. -/
structure HttpRequest where
  method : String
  path : String
  body : Option RequestBody
  queryParams : List (String × String)
  acceptHeader : Option String
deriving Repr, DecidableEq

instance {ε α : Type} [DecidableEq ε] [DecidableEq α] : DecidableEq (Except ε α) := fun a b =>
  match a, b with
  | .ok x, .ok y =>
    if h : x = y then isTrue (by rw [h]) else isFalse (by simp [h])
  | .error x, .error y =>
    if h : x = y then isTrue (by rw [h]) else isFalse (by simp [h])
  | .ok _, .error _ => isFalse (by simp)
  | .error _, .ok _ => isFalse (by simp)

/-- PullRequestInput from src/types.ts (validated create-pull-request input). -/
structure PullRequestInput where
  project : String
  repository : String
  title : String
  description : Option String
  sourceBranch : String
  targetBranch : String
  reviewers : Option (List String)
deriving Repr, DecidableEq

/-- MergeOptions from src/types.ts, as the dispatcher builds them from casts. -/
structure MergeOptions where
  message : Option String
  strategy : Option String
deriving Repr, DecidableEq

/-- CommentOptions from src/types.ts, as the dispatcher builds them. -/
structure CommentOptions where
  text : Option String
  parentId : Option Int
deriving Repr, DecidableEq

/-- The options object passed to addInlineComment. -/
structure InlineCommentOptions where
  text : Option String
  filePath : Option String
  line : Option Int
  lineType : Option String
  startColumn : Option Int
  endColumn : Option Int
  parentId : Option Int
  suggestedCode : Option String
  originalCode : Option String
deriving Repr, DecidableEq

/-- The path segment shared by the pull-request handlers:
/projects/$p/repos/$r/pull-requests/$id with undefined rendered as text. -/
def prPath (params : PullRequestParams) : String :=
  "/projects/" ++ jsShowStr params.project ++ "/repos/" ++ jsShowStr params.repository ++
    "/pull-requests/" ++ jsShowInt params.prId

/-- createPullRequest handler: POST the pull-request body. -/
def createPullRequestRequest (input : PullRequestInput) : HttpRequest :=
  { method := "POST"
    path := "/projects/" ++ input.project ++ "/repos/" ++ input.repository ++ "/pull-requests"
    body := some (.createPullRequest
      { title := input.title
        description := input.description
        fromRef :=
          { id := "refs/heads/" ++ input.sourceBranch
            repositorySlug := input.repository
            projectKey := input.project }
        toRef :=
          { id := "refs/heads/" ++ input.targetBranch
            repositorySlug := input.repository
            projectKey := input.project }
        reviewers := input.reviewers.map (fun rs => rs.map (fun u => { name := u })) })
    queryParams := []
    acceptHeader := none }

/-- getPullRequest handler: GET the pull request. -/
def getPullRequestRequest (params : PullRequestParams) : HttpRequest :=
  { method := "GET"
    path := prPath params
    body := none
    queryParams := []
    acceptHeader := none }

/-- mergePullRequest handler: POST /merge with version -1 and the strategy
defaulted to merge-commit when undefined. -/
def mergePullRequestRequest (params : PullRequestParams) (options : MergeOptions) : HttpRequest :=
  { method := "POST"
    path := prPath params ++ "/merge"
    body := some (.merge
      { version := -1
        message := options.message
        strategy := options.strategy.getD "merge-commit" })
    queryParams := []
    acceptHeader := none }

/-- declinePullRequest handler: POST /decline with version -1. -/
def declinePullRequestRequest (params : PullRequestParams) (message : Option String) : HttpRequest :=
  { method := "POST"
    path := prPath params ++ "/decline"
    body := some (.decline { version := -1, message := message })
    queryParams := []
    acceptHeader := none }

/-- addComment handler: POST /comments; the parent object is attached only for
a truthy parentId. -/
def addCommentRequest (params : PullRequestParams) (options : CommentOptions) : HttpRequest :=
  { method := "POST"
    path := prPath params ++ "/comments"
    body := some (.addComment
      { text := options.text
        parent := if truthyInt options.parentId then options.parentId else none })
    queryParams := []
    acceptHeader := none }

/-- getDiff handler request: GET /diff with the contextLines query parameter
(default parameter value 10) and an Accept: text/plain header. -/
def getDiffRequest (params : PullRequestParams) (contextLines : Option Int) : HttpRequest :=
  { method := "GET"
    path := prPath params ++ "/diff"
    body := none
    queryParams := [("contextLines", toString (contextLines.getD 10))]
    acceptHeader := some "text/plain" }

/-- getReviews handler request: GET /activities. -/
def getReviewsRequest (params : PullRequestParams) : HttpRequest :=
  { method := "GET"
    path := prPath params ++ "/activities"
    body := none
    queryParams := []
    acceptHeader := none }

/-- One item of the uniform result envelope. -/
structure ContentItem where
  type : String
  text : String
deriving Repr, DecidableEq

/-- The uniform result envelope every handler returns. -/
structure ResultEnvelope where
  content : List ContentItem
deriving Repr, DecidableEq

/-- getDiff handler response shaping: the raw response body is forwarded as
the text of the envelope, with no serialisation step. -/
def getDiffEnvelope (rawBody : String) : ResultEnvelope :=
  { content := [{ type := "text", text := rawBody }] }

/-- BitbucketActivity from src/types.ts: an action plus further keys, the
further keys modelled as a string-valued association list. -/
structure BitbucketActivity where
  action : String
  extra : List (String × String)
deriving Repr, DecidableEq

/-- The filter predicate of the getReviews handler. -/
def isReviewActivity (a : BitbucketActivity) : Bool :=
  a.action == "APPROVED" || a.action == "REVIEWED"

/-- getReviews handler: response.data.values filtered to APPROVED/REVIEWED. -/
def getReviewsReviews (values : List BitbucketActivity) : List BitbucketActivity :=
  values.filter isReviewActivity

/-- A model of JSON.stringify(x, null, 2) for one activity object. -/
def prettyActivity (a : BitbucketActivity) : String :=
  "  \x7b\n" ++
    joinSep ",\n"
      ((("action", a.action) :: a.extra).map
        (fun kv => "    \"" ++ kv.1 ++ "\": \"" ++ kv.2 ++ "\"")) ++
    "\n  \x7d"

/-- A model of JSON.stringify(x, null, 2) for a list of activities. -/
def prettyActivities : List BitbucketActivity → String
  | [] => "[]"
  | l => "[\n" ++ joinSep ",\n" (l.map prettyActivity) ++ "\n]"

/-- getReviews handler response shaping: the filtered activity list is
serialised as pretty-printed JSON into the envelope text. -/
def getReviewsEnvelope (values : List BitbucketActivity) : ResultEnvelope :=
  { content := [{ type := "text", text := prettyActivities (getReviewsReviews values) }] }

/-- The composite suggestion comment the addInlineComment handler builds when
suggestedCode is truthy: title, blank line, a diff fence with minus-prefixed
original lines (when originalCode is truthy) and plus-prefixed suggested
lines, then a second fence with the raw suggested code. -/
def buildSuggestionText (text : Option String) (filePath line : String)
    (originalCode : Option String) (suggestedCode : String) : String :=
  let generatedTitle := "Suggestion for " ++ filePath ++ " at line " ++ line
  let title :=
    match text with
    | some t => if t = "" then generatedTitle else t
    | none => generatedTitle
  let removedPart :=
    match originalCode with
    | some oc =>
        if oc = "" then ""
        else joinSep "\n" ((splitJs '\n' oc).map (fun l => "- " ++ l)) ++ "\n"
    | none => ""
  let addedLines := joinSep "\n" ((splitJs '\n' suggestedCode).map (fun l => "+ " ++ l))
  title ++ "\n\n" ++ "```diff\n" ++ removedPart ++ addedLines ++ "\n```" ++
    "\n\nSuggested code:\n```\n" ++ suggestedCode ++ "\n```"

/-- The final comment text of the addInlineComment handler: the composite
suggestion text when suggestedCode is truthy, the given text otherwise. -/
def finalCommentText (o : InlineCommentOptions) : Option String :=
  match o.suggestedCode with
  | some sc =>
      if sc = "" then o.text
      else some (buildSuggestionText o.text (jsShowStr o.filePath) (jsShowInt o.line)
        o.originalCode sc)
  | none => o.text

/-- The anchor of the inline-comment payload: constant diffType EFFECTIVE and
fileType TO; the column fields survive only when startColumn and endColumn
are both truthy. -/
def inlineCommentAnchor (o : InlineCommentOptions) : CommentAnchor :=
  { diffType := "EFFECTIVE"
    path := o.filePath
    lineType := o.lineType.getD "CONTEXT"
    line := o.line
    fileType := "TO"
    startColumn := if truthyInt o.startColumn && truthyInt o.endColumn then o.startColumn else none
    endColumn := if truthyInt o.startColumn && truthyInt o.endColumn then o.endColumn else none }

/-- addInlineComment handler: POST /comments with the CommentPayload. -/
def addInlineCommentRequest (params : PullRequestParams) (o : InlineCommentOptions) : HttpRequest :=
  { method := "POST"
    path := prPath params ++ "/comments"
    body := some (.inlineComment
      { text := finalCommentText o
        anchor := inlineCommentAnchor o
        parent := if truthyInt o.parentId then o.parentId else none })
    queryParams := []
    acceptHeader := none }

/-- Modelled from the spec: the list handlers live in src/bitbucket-api.ts,
which is not among the staged files; their GET paths follow the outbound
REST mapping table of the specification. -/
def listRepositoriesRequest (project : String) : HttpRequest :=
  { method := "GET"
    path := "/projects/" ++ project ++ "/repos"
    body := none
    queryParams := []
    acceptHeader := none }

/-- Modelled from the spec: list_pull_requests GET path. -/
def listPullRequestsRequest (project repository : String) : HttpRequest :=
  { method := "GET"
    path := "/projects/" ++ project ++ "/repos/" ++ repository ++ "/pull-requests"
    body := none
    queryParams := []
    acceptHeader := none }

/-- Modelled from the spec: list_branches GET path. -/
def listBranchesRequest (project repository : String) : HttpRequest :=
  { method := "GET"
    path := "/projects/" ++ project ++ "/repos/" ++ repository ++ "/branches"
    body := none
    queryParams := []
    acceptHeader := none }

/-- Modelled from the spec: get_repository_details GET path. -/
def getRepositoryDetailsRequest (project repository : String) : HttpRequest :=
  { method := "GET"
    path := "/projects/" ++ project ++ "/repos/" ++ repository
    body := none
    queryParams := []
    acceptHeader := none }

/-- The flat argument map of one tool call, with the fields the dispatcher
reads; a missing argument is none. -/
structure ToolArgs where
  project : Option String
  repository : Option String
  prId : Option Int
  title : Option String
  description : Option String
  sourceBranch : Option String
  targetBranch : Option String
  reviewers : Option (List String)
  message : Option String
  strategy : Option String
  text : Option String
  parentId : Option Int
  contextLines : Option Int
  filePath : Option String
  line : Option Int
  lineType : Option String
  startColumn : Option Int
  endColumn : Option Int
  suggestedCode : Option String
deriving Repr, DecidableEq

/-- An argument map with every argument missing. -/
def noArgs : ToolArgs :=
  { project := none, repository := none, prId := none, title := none, description := none
    sourceBranch := none, targetBranch := none, reviewers := none, message := none
    strategy := none, text := none, parentId := none, contextLines := none, filePath := none
    line := none, lineType := none, startColumn := none, endColumn := none
    suggestedCode := none }

/-- The error codes of the MCP SDK the dispatcher uses. -/
inductive ErrCode where
  | invalidParams
  | methodNotFound
  | internalError
deriving Repr, DecidableEq

/-- McpError as thrown by the dispatcher. -/
structure McpError where
  code : ErrCode
  message : String
deriving Repr, DecidableEq

/-- The error thrown when neither the project argument nor the configured
default project is truthy. -/
def missingProjectError : McpError :=
  { code := .invalidParams
    message := "Project must be provided either as a parameter or through BITBUCKET_DEFAULT_PROJECT environment variable" }

/-- The error of the list_repositories branch for a falsy project argument. -/
def projectKeyRequiredError : McpError :=
  { code := .invalidParams, message := "Project key is required" }

/-- The error of the repository-listing branches for falsy arguments. -/
def projectAndRepositoryRequiredError : McpError :=
  { code := .invalidParams, message := "Project and repository are required" }

/-- The error thrown when isPullRequestInput rejects the arguments. -/
def invalidPullRequestInputError : McpError :=
  { code := .invalidParams, message := "Invalid pull request input parameters" }

/-- BITBUCKET_DEFAULT_REVIEWERS handling:
split on commas, trim each entry, drop the falsy (empty) entries. -/
def parseDefaultReviewers (s : String) : List String :=
  ((splitJs ',' s).map trimJs).filter (fun r => r != "")

/-- isPullRequestInput: in this typed embedding of the argument map the
typeof checks amount to presence of the five required string fields. -/
def isPullRequestInput (args : ToolArgs) : Bool :=
  args.project.isSome && args.repository.isSome && args.title.isSome &&
    args.sourceBranch.isSome && args.targetBranch.isSome

/-- Extraction of the validated PullRequestInput from the argument map. -/
def toPullRequestInput (args : ToolArgs) : PullRequestInput :=
  { project := args.project.getD ""
    repository := args.repository.getD ""
    title := args.title.getD ""
    description := args.description
    sourceBranch := args.sourceBranch.getD ""
    targetBranch := args.targetBranch.getD ""
    reviewers := args.reviewers }

/-- The reviewers-defaulting step of the create_pull_request case: when the
reviewers argument is not a non-empty array and BITBUCKET_DEFAULT_REVIEWERS
is truthy, the parsed default list replaces the reviewers argument. -/
def applyDefaultReviewers (defaultReviewers : Option String) (args : ToolArgs) : ToolArgs :=
  if (match args.reviewers with
      | none => true
      | some l => l.isEmpty) then
    match defaultReviewers with
    | some dr => if dr != "" then { args with reviewers := some (parseDefaultReviewers dr) } else args
    | none => args
  else args

/-- The CallToolRequestSchema dispatcher of src/bitbucket-server.ts
(lines 329-439), reduced to the outbound request each branch would issue:
an Except.error is a terminal error response with no HTTP call made. -/
def dispatch (defaultProject defaultReviewers : Option String) (name : String)
    (args : ToolArgs) : Except McpError HttpRequest :=
  let resolvedProject := jsNullish args.project defaultProject
  let params : PullRequestParams :=
    { project := resolvedProject, repository := args.repository, prId := args.prId }
  if !truthyStr resolvedProject then
    .error missingProjectError
  else if name = "list_repositories" then
    if !truthyStr args.project then .error projectKeyRequiredError
    else .ok (listRepositoriesRequest (args.project.getD ""))
  else if name = "list_pull_requests" then
    if !(truthyStr args.project && truthyStr args.repository) then
      .error projectAndRepositoryRequiredError
    else .ok (listPullRequestsRequest (args.project.getD "") (args.repository.getD ""))
  else if name = "list_branches" then
    if !(truthyStr args.project && truthyStr args.repository) then
      .error projectAndRepositoryRequiredError
    else .ok (listBranchesRequest (args.project.getD "") (args.repository.getD ""))
  else if name = "get_repository_details" then
    if !(truthyStr args.project && truthyStr args.repository) then
      .error projectAndRepositoryRequiredError
    else .ok (getRepositoryDetailsRequest (args.project.getD "") (args.repository.getD ""))
  else if name = "create_pull_request" then
    let args1 := applyDefaultReviewers defaultReviewers args
    if !isPullRequestInput args1 then .error invalidPullRequestInputError
    else .ok (createPullRequestRequest (toPullRequestInput args1))
  else if name = "get_pull_request" then
    .ok (getPullRequestRequest params)
  else if name = "merge_pull_request" then
    .ok (mergePullRequestRequest params { message := args.message, strategy := args.strategy })
  else if name = "decline_pull_request" then
    .ok (declinePullRequestRequest params args.message)
  else if name = "add_comment" then
    .ok (addCommentRequest params { text := args.text, parentId := args.parentId })
  else if name = "get_diff" then
    .ok (getDiffRequest params args.contextLines)
  else if name = "get_reviews" then
    .ok (getReviewsRequest params)
  else if name = "add_inline_comment" then
    .ok (addInlineCommentRequest params
      { text := args.text, filePath := args.filePath, line := args.line
        lineType := args.lineType, startColumn := args.startColumn, endColumn := args.endColumn
        parentId := args.parentId, suggestedCode := none, originalCode := none })
  else if name = "suggest_code_change" then
    .ok (addInlineCommentRequest params
      { text := args.message, filePath := args.filePath, line := args.line
        lineType := args.lineType, startColumn := none, endColumn := none
        parentId := args.parentId, suggestedCode := args.suggestedCode, originalCode := none })
  else if name = "delete_pull_request" then
    .ok (declinePullRequestRequest params args.message)
  else
    .error { code := .methodNotFound, message := "Unknown tool: " ++ name }

/-- Unfolding of string truthiness: a truthy optional string is exactly a
present non-empty string. -/
theorem truthyStr_iff (x : Option String) : truthyStr x = true ↔ ∃ s, x = some s ∧ s ≠ "" := by
  cases x <;> simp [truthyStr]

/-- Unfolding of number truthiness: a truthy optional number is exactly a
present non-zero number. -/
theorem truthyInt_iff (x : Option Int) : truthyInt x = true ↔ ∃ n, x = some n ∧ n ≠ 0 := by
  cases x <;> simp [truthyInt]

/-- Evaluation of the default-reviewer parsing on the configured string of
claim C1: split on commas, trim, drop empties. -/
theorem parseDefaultReviewers_alice_bob :
    parseDefaultReviewers "alice, bob" = ["alice", "bob"] := by
  decide

/-- C1: for every create_pull_request call whose arguments lack a reviewers
list (absent or empty array), when BITBUCKET_DEFAULT_REVIEWERS is the string
"alice, bob", the outbound request body carries the reviewers list
[\x7buser: \x7bname: "alice"\x7d\x7d, \x7buser: \x7bname: "bob"\x7d\x7d]: the dispatcher splits the
configured string on commas, trims each entry, drops empty entries, and the
handler wraps each remaining username in order. -/
theorem create_pull_request_default_reviewers
    (dp : Option String) (args : ToolArgs) (p r t sb tb : String)
    (hrev : args.reviewers = none ∨ args.reviewers = some [])
    (hp : args.project = some p) (hpne : p ≠ "")
    (hr : args.repository = some r) (ht : args.title = some t)
    (hsb : args.sourceBranch = some sb) (htb : args.targetBranch = some tb) :
    ∃ req body, dispatch dp (some "alice, bob") "create_pull_request" args = .ok req ∧
      req.body = some (.createPullRequest body) ∧
      body.reviewers = some [{ name := "alice" }, { name := "bob" }] := by
  have hargs1 : applyDefaultReviewers (some "alice, bob") args =
      { args with reviewers := some ["alice", "bob"] } := by
    rcases hrev with h | h <;>
      simp [applyDefaultReviewers, h, parseDefaultReviewers_alice_bob]
  have hd : dispatch dp (some "alice, bob") "create_pull_request" args =
      .ok (createPullRequestRequest
        (toPullRequestInput { args with reviewers := some ["alice", "bob"] })) := by
    simp [dispatch, jsNullish, hp, truthyStr, hpne, hargs1, isPullRequestInput, hr, ht, hsb, htb]
  exact ⟨_, _, hd, rfl, by simp [toPullRequestInput, createPullRequestRequest]⟩

/-- C1 witness: a concrete create_pull_request call with no reviewers argument
and default reviewers "alice, bob". -/
theorem create_pull_request_default_reviewers_witness :
    ∃ req body, dispatch none (some "alice, bob") "create_pull_request"
        { noArgs with project := some "PRJ"
                      repository := some "repo"
                      title := some "My PR"
                      sourceBranch := some "feature"
                      targetBranch := some "main" } = .ok req ∧
      req.body = some (.createPullRequest body) ∧
      body.reviewers = some [{ name := "alice" }, { name := "bob" }] :=
  create_pull_request_default_reviewers none _ "PRJ" "repo" "My PR" "feature" "main"
    (Or.inl rfl) rfl (by decide) rfl rfl rfl rfl

/-- C2: for every tool call whose argument map omits project, when no default
project is configured, the dispatcher answers with the InvalidParams error
naming the missing project; the Except.error value means the dispatcher is
terminal there, so no operation handler runs and no HTTP request is built. -/
theorem dispatch_missing_project_rejected
    (dr : Option String) (name : String) (args : ToolArgs)
    (hp : args.project = none) :
    dispatch none dr name args = .error missingProjectError ∧
    missingProjectError.code = .invalidParams := by
  constructor
  · simp [dispatch, jsNullish, hp, truthyStr]
  · rfl

/-- C2 witness: a concrete get_diff call with no project argument and no
default project. -/
theorem dispatch_missing_project_rejected_witness :
    dispatch none none "get_diff" noArgs = .error missingProjectError ∧
    missingProjectError.code = .invalidParams :=
  dispatch_missing_project_rejected none "get_diff" noArgs rfl

/-- C3: the get_reviews handler keeps exactly the activities whose action is
APPROVED or REVIEWED, in the original relative order (the result is a
sublist of the input), and serialises the filtered list as pretty-printed
JSON into the envelope; on the four-element mixed example exactly the two
middle entries survive in order. -/
theorem get_reviews_filters_approved_reviewed :
    (∀ values : List BitbucketActivity,
        getReviewsReviews values = values.filter isReviewActivity ∧
        (getReviewsReviews values).Sublist values ∧
        (∀ a, a ∈ getReviewsReviews values ↔
          a ∈ values ∧ (a.action = "APPROVED" ∨ a.action = "REVIEWED")) ∧
        getReviewsEnvelope values =
          { content := [{ type := "text"
                          text := prettyActivities (values.filter isReviewActivity) }] }) ∧
    getReviewsReviews
        [{ action := "COMMENTED", extra := [] }, { action := "APPROVED", extra := [] },
         { action := "REVIEWED", extra := [] }, { action := "OPENED", extra := [] }] =
      [{ action := "APPROVED", extra := [] }, { action := "REVIEWED", extra := [] }] := by
  refine ⟨fun values => ⟨rfl, List.filter_sublist _, fun a => ?_, rfl⟩, by decide⟩
  simp [getReviewsReviews, List.mem_filter, isReviewActivity]

/-- C4: the get_diff handler forwards the raw HTTP response body unchanged as
the envelope text (no JSON stringification or other transformation), and its
request carries the Accept: text/plain header. -/
theorem get_diff_raw_passthrough :
    (∀ rawBody : String,
        (getDiffEnvelope rawBody).content = [{ type := "text", text := rawBody }]) ∧
    (∀ (params : PullRequestParams) (contextLines : Option Int),
        (getDiffRequest params contextLines).acceptHeader = some "text/plain" ∧
        (getDiffRequest params contextLines).method = "GET" ∧
        (getDiffRequest params contextLines).queryParams =
          [("contextLines", toString (contextLines.getD 10))]) :=
  ⟨fun _ => rfl, fun _ _ => ⟨rfl, rfl, rfl⟩⟩

/-- C5 counterexample: with suggestedCode supplied as the empty string (which
is present but falsy), the handler does not build the composite suggestion
text; it sends the plain message, which differs from the composite the claim
requires for every invocation with suggestedCode present. -/
theorem suggest_code_change_empty_suggestion_counterexample :
    finalCommentText
        { text := some "Use foo"
          filePath := some "file.ts"
          line := some 3
          lineType := none
          startColumn := none
          endColumn := none
          parentId := none
          suggestedCode := some ""
          originalCode := none } = some "Use foo" ∧
    buildSuggestionText (some "Use foo") "file.ts" "3" none "" ≠ "Use foo" := by
  decide

/-- C5 (amended): for every invocation with suggestedCode present and
non-empty, the outbound comment text is the composite string with the title
line (the explicit non-empty text), a fenced diff block with minus-prefixed
original lines when originalCode is given and plus-prefixed suggested lines,
then a second fence with the raw suggested code; concretely, the
suggest_code_change tool call with message "Use foo" and suggestedCode
"foo();" sends exactly that composite, with a plus line and no minus lines. -/
theorem suggest_code_change_composite_text
    (m fp ln sc : String) (oc : Option String) (hm : m ≠ "") (hsc : sc ≠ "") :
    buildSuggestionText (some m) fp ln oc sc =
      m ++ "\n\n" ++ "```diff\n" ++
        (match oc with
         | some o => if o = "" then ""
             else joinSep "\n" ((splitJs '\n' o).map (fun l => "- " ++ l)) ++ "\n"
         | none => "") ++
        joinSep "\n" ((splitJs '\n' sc).map (fun l => "+ " ++ l)) ++ "\n```" ++
        "\n\nSuggested code:\n```\n" ++ sc ++ "\n```" ∧
    (∀ o : InlineCommentOptions, o.suggestedCode = some sc →
        finalCommentText o = some (buildSuggestionText o.text (jsShowStr o.filePath)
          (jsShowInt o.line) o.originalCode sc)) ∧
    dispatch (some "PRJ") none "suggest_code_change"
        { noArgs with repository := some "repo"
                      prId := some 42
                      message := some "Use foo"
                      filePath := some "file.ts"
                      line := some 7
                      suggestedCode := some "foo();" } =
      .ok { method := "POST"
            path := "/projects/PRJ/repos/repo/pull-requests/42/comments"
            body := some (.inlineComment
              { text := some "Use foo\n\n```diff\n+ foo();\n```\n\nSuggested code:\n```\nfoo();\n```"
                anchor := { diffType := "EFFECTIVE"
                            path := some "file.ts"
                            lineType := "CONTEXT"
                            line := some 7
                            fileType := "TO"
                            startColumn := none
                            endColumn := none }
                parent := none })
            queryParams := []
            acceptHeader := none } := by
  refine ⟨?_, fun o ho => ?_, by decide⟩
  · simp [buildSuggestionText, hm]
  · simp [finalCommentText, ho, hsc]

/-- C5 witness: the amended composite-text theorem at the concrete
suggest_code_change example of the claim. -/
theorem suggest_code_change_composite_text_witness :
    dispatch (some "PRJ") none "suggest_code_change"
        { noArgs with repository := some "repo"
                      prId := some 42
                      message := some "Use foo"
                      filePath := some "file.ts"
                      line := some 7
                      suggestedCode := some "foo();" } =
      .ok { method := "POST"
            path := "/projects/PRJ/repos/repo/pull-requests/42/comments"
            body := some (.inlineComment
              { text := some "Use foo\n\n```diff\n+ foo();\n```\n\nSuggested code:\n```\nfoo();\n```"
                anchor := { diffType := "EFFECTIVE"
                            path := some "file.ts"
                            lineType := "CONTEXT"
                            line := some 7
                            fileType := "TO"
                            startColumn := none
                            endColumn := none }
                parent := none })
            queryParams := []
            acceptHeader := none } :=
  (suggest_code_change_composite_text "Use foo" "file.ts" "7" "foo();" none
    (by decide) (by decide)).2.2

/-- C6 counterexample: with startColumn = 0 and endColumn = 5 both present in
the input, the outbound anchor carries no column fields, refuting the claim
that the columns are included whenever both are present. -/
theorem inline_anchor_zero_column_counterexample :
    (inlineCommentAnchor
        { text := some "note"
          filePath := some "file.ts"
          line := some 3
          lineType := none
          startColumn := some 0
          endColumn := some 5
          parentId := none
          suggestedCode := none
          originalCode := none }).startColumn = none ∧
    (inlineCommentAnchor
        { text := some "note"
          filePath := some "file.ts"
          line := some 3
          lineType := none
          startColumn := some 0
          endColumn := some 5
          parentId := none
          suggestedCode := none
          originalCode := none }).endColumn = none := by
  decide

/-- C6 (amended): the outbound anchor always carries diffType EFFECTIVE and
fileType TO, and it includes the startColumn/endColumn fields if and only if
both are present with non-zero (JavaScript-truthy) values, in which case the
included values are the inputs; with only one of the two supplied the anchor
carries no column fields. -/
theorem inline_anchor_column_fields (o : InlineCommentOptions) :
    (inlineCommentAnchor o).diffType = "EFFECTIVE" ∧
    (inlineCommentAnchor o).fileType = "TO" ∧
    ((inlineCommentAnchor o).startColumn.isSome ↔
      (∃ s, o.startColumn = some s ∧ s ≠ 0) ∧ (∃ e, o.endColumn = some e ∧ e ≠ 0)) ∧
    ((inlineCommentAnchor o).endColumn.isSome ↔
      (∃ s, o.startColumn = some s ∧ s ≠ 0) ∧ (∃ e, o.endColumn = some e ∧ e ≠ 0)) ∧
    ((inlineCommentAnchor o).startColumn.isSome →
      (inlineCommentAnchor o).startColumn = o.startColumn ∧
      (inlineCommentAnchor o).endColumn = o.endColumn) := by
  have hchar : (truthyInt o.startColumn && truthyInt o.endColumn) = true ↔
      ((∃ s, o.startColumn = some s ∧ s ≠ 0) ∧ (∃ e, o.endColumn = some e ∧ e ≠ 0)) := by
    rw [Bool.and_eq_true, truthyInt_iff, truthyInt_iff]
  cases hb : (truthyInt o.startColumn && truthyInt o.endColumn)
  case false =>
    have hn : ¬((∃ s, o.startColumn = some s ∧ s ≠ 0) ∧
        (∃ e, o.endColumn = some e ∧ e ≠ 0)) := by
      rw [← hchar, hb]; simp
    refine ⟨rfl, rfl, ?_, ?_, ?_⟩
    · simp only [inlineCommentAnchor, hb]
      simpa using hn
    · simp only [inlineCommentAnchor, hb]
      simpa using hn
    · simp [inlineCommentAnchor, hb]
  case true =>
    obtain ⟨⟨s, hs, hs0⟩, ⟨e, he, he0⟩⟩ := hchar.mp hb
    have hsc : (inlineCommentAnchor o).startColumn = o.startColumn := by
      simp [inlineCommentAnchor, hb]
    have hec : (inlineCommentAnchor o).endColumn = o.endColumn := by
      simp [inlineCommentAnchor, hb]
    refine ⟨rfl, rfl, ?_, ?_, fun _ => ⟨hsc, hec⟩⟩
    · constructor
      · intro _
        exact ⟨⟨s, hs, hs0⟩, ⟨e, he, he0⟩⟩
      · intro _
        rw [hsc, hs]; rfl
    · constructor
      · intro _
        exact ⟨⟨s, hs, hs0⟩, ⟨e, he, he0⟩⟩
      · intro _
        rw [hec, he]; rfl

/-- C7: the delete_pull_request and decline_pull_request dispatcher branches
produce identical outcomes on every argument map and configuration, and the
shared decline request is a POST whose path ends in /decline with body
version -1 plus the optional message. -/
theorem delete_pull_request_is_decline :
    (∀ (dp dr : Option String) (args : ToolArgs),
        dispatch dp dr "delete_pull_request" args =
          dispatch dp dr "decline_pull_request" args) ∧
    (∀ (params : PullRequestParams) (message : Option String),
        (declinePullRequestRequest params message).method = "POST" ∧
        (declinePullRequestRequest params message).path = prPath params ++ "/decline" ∧
        (declinePullRequestRequest params message).body =
          some (.decline { version := -1, message := message })) := by
  refine ⟨fun dp dr args => ?_, fun _ _ => ⟨rfl, rfl, rfl⟩⟩
  unfold dispatch
  cases h : truthyStr (jsNullish args.project dp) <;> simp

/-- C8: the merge body always carries version -1 for every input, and its
strategy is the supplied strategy when present and "merge-commit" when
absent; every successful merge_pull_request dispatch sends such a body, so no
caller input can set a different version. -/
theorem merge_version_strategy_defaults :
    (∀ (params : PullRequestParams) (options : MergeOptions),
        (mergePullRequestRequest params options).body =
          some (.merge { version := -1
                         message := options.message
                         strategy := options.strategy.getD "merge-commit" })) ∧
    (∀ (dp dr : Option String) (args : ToolArgs) (req : HttpRequest),
        dispatch dp dr "merge_pull_request" args = .ok req →
        ∃ b, req.body = some (.merge b) ∧ b.version = -1 ∧
          b.strategy = args.strategy.getD "merge-commit" ∧ b.message = args.message) := by
  refine ⟨fun _ _ => rfl, fun dp dr args req h => ?_⟩
  by_cases ht : truthyStr (jsNullish args.project dp) = true
  · simp [dispatch, ht] at h
    subst h
    exact ⟨_, rfl, rfl, rfl, rfl⟩
  · simp [dispatch, ht] at h

/-- C9: server construction succeeds exactly when the base URL is non-empty
and either a non-empty token or a complete non-empty username/password pair
is in the environment, and every successfully constructed configuration
satisfies the credential invariant. -/
theorem config_construction_success_iff (env : EnvVars) :
    ((constructConfig env).isOk ↔
      ((env.url).getD "" ≠ "" ∧
        ((∃ t, env.token = some t ∧ t ≠ "") ∨
          ((∃ u, env.username = some u ∧ u ≠ "") ∧
            (∃ p, env.password = some p ∧ p ≠ ""))))) ∧
    (∀ cfg, constructConfig env = .ok cfg →
        cfg.baseUrl ≠ "" ∧
        ((∃ t, cfg.token = some t ∧ t ≠ "") ∨
          ((∃ u, cfg.username = some u ∧ u ≠ "") ∧
            (∃ p, cfg.password = some p ∧ p ≠ "")))) := by
  have hcred : (truthyStr env.token ||
      (truthyStr env.username && truthyStr env.password)) = true ↔
      ((∃ t, env.token = some t ∧ t ≠ "") ∨
        ((∃ u, env.username = some u ∧ u ≠ "") ∧
          (∃ p, env.password = some p ∧ p ≠ ""))) := by
    rw [Bool.or_eq_true, Bool.and_eq_true, truthyStr_iff, truthyStr_iff, truthyStr_iff]
  by_cases h1 : (env.url).getD "" = ""
  · have hval : constructConfig env = .error "BITBUCKET_URL is required" := by
      unfold constructConfig
      rw [if_pos (by simpa [loadConfig] using h1)]
    constructor
    · rw [hval]
      simp [Except.isOk, Except.toBool, h1]
    · intro cfg hcfg
      rw [hval] at hcfg
      exact absurd hcfg (by simp)
  · cases hc : (truthyStr env.token || (truthyStr env.username && truthyStr env.password))
    · have hc2 : truthyStr env.token = false ∧
          (truthyStr env.username && truthyStr env.password) = false := by
        simpa using hc
      have hval : constructConfig env =
          .error "Either BITBUCKET_TOKEN or BITBUCKET_USERNAME/PASSWORD is required" := by
        unfold constructConfig
        rw [if_neg (by simpa [loadConfig] using h1)]
        rw [if_pos (by simp only [loadConfig]; rw [hc2.1, hc2.2]; rfl)]
      constructor
      · constructor
        · intro habs
          rw [hval] at habs
          simp [Except.isOk, Except.toBool] at habs
        · rintro ⟨-, hr⟩
          exact absurd (hcred.mpr hr) (by simp [hc])
      · intro cfg hcfg
        rw [hval] at hcfg
        exact absurd hcfg (by simp)
    · have hd : truthyStr env.token = true ∨
          (truthyStr env.username = true ∧ truthyStr env.password = true) := by
        simpa using hc
      have hneg : ¬((!truthyStr (loadConfig env).token &&
          !(truthyStr (loadConfig env).username &&
            truthyStr (loadConfig env).password)) = true) := by
        rcases hd with h2 | ⟨hU2, hP2⟩
        · simp only [loadConfig]
          rw [h2]
          simp
        · simp only [loadConfig]
          rw [hU2, hP2]
          simp
      have hval : constructConfig env = .ok (loadConfig env) := by
        unfold constructConfig
        rw [if_neg (by simpa [loadConfig] using h1), if_neg hneg]
      constructor
      · rw [hval]
        constructor
        · intro _
          exact ⟨h1, hcred.mp hc⟩
        · intro _
          rfl
      · intro cfg hcfg
        rw [hval] at hcfg
        injection hcfg with h2
        subst h2
        constructor
        · simpa [loadConfig] using h1
        · simpa [loadConfig] using hcred.mp hc

/-- C10: for every tool call that supplies project explicitly as the empty
string, the dispatcher reports the missing-project InvalidParams error even
when a default project is configured, because the nullish coalescing keeps
the empty string and the truthiness check then rejects it before any handler
branch runs. -/
theorem dispatch_empty_project_string_rejected
    (dp dr : Option String) (name : String) (args : ToolArgs)
    (hp : args.project = some "") :
    dispatch dp dr name args = .error missingProjectError ∧
    missingProjectError.code = .invalidParams := by
  constructor
  · simp [dispatch, jsNullish, hp, truthyStr]
  · rfl

/-- C10 witness: a concrete get_reviews call with project explicitly the
empty string while a default project is configured. -/
theorem dispatch_empty_project_string_rejected_witness :
    dispatch (some "PRJ") none "get_reviews" { noArgs with project := some "" } =
      .error missingProjectError ∧
    missingProjectError.code = .invalidParams :=
  dispatch_empty_project_string_rejected (some "PRJ") none "get_reviews"
    { noArgs with project := some "" } rfl

end BitbucketMcp
